import Mathlib

/-!
Shallow embedding of the validation-worker core of
`NextLevel2025Medical/webflow-webhook` (`src/worker_validation.py`):
identifier normalization and matching, the job store operations,
the per-claim runner pipeline, and the phone-based dedup coordination.

Strings are modelled as `List Char`; ASCII behaviour of the Python string
primitives (`strip`, `upper`, the regex classes `\d`, `\s`, `[A-Z]`) is
reproduced exactly, which covers every identifier shape the worker handles
(digits, `-`/`/`/space separators, two-letter region codes).
-/

namespace WorkerValidation

/-- Identifier and message strings, modelled as lists of characters. -/
abbrev Str := List Char

/-- The characters of a string literal. -/
def str (s : String) : Str := s.data

/-- Python whitespace (codes 32, 9, 10, 13, 11, 12): the regex class `\s`
    and the characters removed by `str.strip()`. -/
def isPyWs (c : Char) : Bool :=
  c.toNat = 32 || c.toNat = 9 || c.toNat = 10 || c.toNat = 13 ||
  c.toNat = 11 || c.toNat = 12

/-- Python `s.strip()`: drop whitespace from both ends. -/
def pyStrip (l : Str) : Str :=
  ((l.dropWhile isPyWs).reverse.dropWhile isPyWs).reverse

/-- Python `s.upper()` (ASCII letters; identifiers contain only digits,
    separators and region letters). -/
def pyUpper (l : Str) : Str := l.map Char.toUpper

/-- An ASCII digit `0`..`9` (code 48..57): the regex class `\d`. -/
def isDigitCh (c : Char) : Bool := 48 ≤ c.toNat && c.toNat ≤ 57

/-- `only_digits` (worker_validation.py line 157): `re.sub(r"\D", "", s or "")`. -/
def only_digits (l : Str) : Str := l.filter isDigitCh

/-- An ASCII uppercase letter `A`..`Z` (code 65..90): the class `[A-Z]`. -/
def isUpperAZ (c : Char) : Bool := 65 ≤ c.toNat && c.toNat ≤ 90

/-- A separator accepted between number and region: `-` (45), `/` (47) or `\s`. -/
def isSepCh (c : Char) : Bool := c.toNat = 45 || c.toNat = 47 || isPyWs c

/-- `re.search(r"^(.+?)(?:-|/|\s)([A-Z]{2})$", s)`: the pattern is anchored at
    both ends and its tail has fixed width, so a match exists exactly when the
    last two characters are `[A-Z]`, the character before them is a separator,
    and the remainder (group 1, `.+?`, which cannot cross a newline) is
    non-empty; group 1 is then everything before the separator. -/
def regexNumUf (l : Str) : Option (Str × Char × Char) :=
  match l.reverse with
  | u2 :: u1 :: sep :: g1rev =>
    if isUpperAZ u1 && isUpperAZ u2 && isSepCh sep && !g1rev.isEmpty
        && !(g1rev.any (fun c => c.toNat == 10))
    then some (g1rev.reverse, u1, u2) else none
  | _ => none

/-- `split_number_uf` (worker_validation.py lines 160-165): strip and
    uppercase, try to split off a trailing two-letter region code, and keep
    only the digits of the number part. -/
def split_number_uf (s0 : Str) : Str × Option Str :=
  let s := pyUpper (pyStrip s0)
  if s.isEmpty then ([], none)
  else
    match regexNumUf s with
    | some (g1, u1, u2) => (only_digits g1, some [u1, u2])
    | none => (only_digits s, none)

/-- `match_document` (worker_validation.py lines 220-224): an empty expected
    string never matches; otherwise the expected value matches if its
    `number-REGION` form (when a region is present) or its bare number is in
    the extracted set. -/
def match_document (expected : Str) (extracted_ids : List Str) : Bool :=
  if expected.isEmpty then false
  else
    match split_number_uf expected with
    | (num, some u) =>
      if extracted_ids.contains (num ++ '-' :: u) then true
      else extracted_ids.contains num
    | (num, none) => extracted_ids.contains num

/-- The `add` helper inside `collect_identifiers_from_result`
    (worker_validation.py lines 201-206): the candidate forms contributed by
    one raw identifier value — its bare number and, when a region code is
    present, also `number-REGION`.  Empty values and values with no digits
    contribute nothing. -/
def candidate_forms (v : Str) : List Str :=
  if v.isEmpty then []
  else
    match split_number_uf v with
    | (num, uf) =>
      if num.isEmpty then []
      else
        match uf with
        | some u => [num, num ++ '-' :: u]
        | none => [num]

/-- The extracted identifier set: candidate forms pooled over every
    identifier value returned by the lookup (the `add`/`add_list` calls of
    `collect_identifiers_from_result`).  Sets are lists up to membership. -/
def extractedOf (ids : List Str) : List Str := ids.flatMap candidate_forms

/-- Python `a or b` on an optional string field: `None` and `""` are falsy. -/
def pyOrS (a b : Option Str) : Option Str :=
  match a with
  | some s => if s.isEmpty then b else some s
  | none => b

/-- Python `a or b` on an optional list field: `None` and `[]` are falsy. -/
def pyOrL (a b : Option (List Str)) : Option (List Str) :=
  match a with
  | some l => if l.isEmpty then b else some l
  | none => b

/-- `add` applied to an optional value. -/
def addOpt (v : Option Str) : List Str :=
  match v with
  | none => []
  | some s => candidate_forms s

/-- `add_list` applied to an optional list of values. -/
def addListOpt (v : Option (List Str)) : List Str :=
  match v with
  | none => []
  | some l => l.flatMap candidate_forms

/-- The `dados` dict produced by the registry lookup (`buscar_sbcp`), with
    the identifier fields `collect_identifiers_from_result` reads.  `none`
    models an absent key. -/
structure Dados where
  crm_padrao : Option Str := none
  crm : Option Str := none
  rqe_padrao : Option Str := none
  rqe : Option Str := none
  crefito_padrao : Option Str := none
  crefito : Option Str := none
  crms_padrao : Option (List Str) := none
  crms : Option (List Str) := none
  rqes_padrao : Option (List Str) := none
  rqes : Option (List Str) := none
  crefitos_padrao : Option (List Str) := none
  crefitos : Option (List Str) := none
deriving DecidableEq, Repr

/-- A registry-lookup result (`buscar_sbcp` return value), restricted to the
    keys the worker reads: `ok`, `reason` and `dados`.  `dados := none`
    models both a missing and an empty `dados` dict (`d or {}` followed by
    `isinstance(d, dict) and d`). -/
structure LookupResult where
  ok : Bool
  reason : Option Str := none
  dados : Option Dados := none
deriving DecidableEq, Repr

/-- `collect_identifiers_from_result` (worker_validation.py lines 199-218):
    pool the candidate forms of every identifier value in `dados`, taking the
    `*_padrao` field when truthy and falling back to the raw field. -/
def collect_identifiers_from_result (r : LookupResult) : List Str :=
  match r.dados with
  | none => []
  | some d =>
      addOpt (pyOrS d.crm_padrao d.crm) ++
      addOpt (pyOrS d.rqe_padrao d.rqe) ++
      addOpt (pyOrS d.crefito_padrao d.crefito) ++
      addListOpt (pyOrL d.crms_padrao d.crms) ++
      addListOpt (pyOrL d.rqes_padrao d.rqes) ++
      addListOpt (pyOrL d.crefitos_padrao d.crefitos)

/-! ### Job store

The `validations_jobs` table joined with `membersnextlevel`.  The jobs list
is kept in `id` order, matching the `ORDER BY id` of the claim query.
`NOW()` is passed explicitly as a `now` argument. -/

/-- The job status column (closed enum). -/
inductive JStatus
  | PENDING | RUNNING | SUCCEEDED | FAILED | CANCELLED
deriving DecidableEq, Repr, BEq

/-- A `validations_jobs` row (the columns the worker reads and writes). -/
structure Job where
  id : Nat
  member_id : Nat
  status : JStatus
  attempts : Nat
  last_error : Option Str := none
  updated_at : Nat := 0
deriving DecidableEq, Repr

/-- A `membersnextlevel` row, reduced to the dedup key: `metadata->>'phone'`
    (`none` models SQL NULL / a missing key). -/
structure Member where
  id : Nat
  phone : Option Str := none
deriving DecidableEq, Repr

/-- The database state shared by all workers. -/
structure Store where
  jobs : List Job
  members : List Member
deriving DecidableEq, Repr

/-- `fetch_next_job` (worker_validation.py lines 65-76):
    `SELECT ... WHERE status='PENDING' ORDER BY id FOR UPDATE SKIP LOCKED
    LIMIT 1`.  With the jobs list in id order this is the first PENDING row.
    The SELECT itself mutates nothing; see `worker_step` for the lock
    discipline the surrounding code actually obtains. -/
def fetch_next_job (s : Store) : Option Job :=
  s.jobs.find? (fun j => decide (j.status = JStatus.PENDING))

/-- `mark_running` (worker_validation.py lines 78-87): flip the row to
    RUNNING, set `attempts` to one more than the value read at fetch time,
    stamp `updated_at`. -/
def mark_running (s : Store) (job_id attempts now : Nat) : Store :=
  { s with jobs := s.jobs.map fun j =>
      if j.id = job_id then
        { j with status := .RUNNING, attempts := attempts + 1, updated_at := now }
      else j }

/-- `finalize_job` (worker_validation.py lines 89-96): set status and
    `last_error`, stamp `updated_at`.  The UPDATE is keyed on `id` only —
    there is no guard on the row's current status. -/
def finalize_job (s : Store) (job_id : Nat) (st : JStatus) (le : Option Str)
    (now : Nat) : Store :=
  { s with jobs := s.jobs.map fun j =>
      if j.id = job_id then { j with status := st, last_error := le, updated_at := now }
      else j }

/-- `requeue_stale_running_jobs` (worker_validation.py lines 98-111): the
    watchdog flips every RUNNING row with `updated_at < NOW() - ttl` back to
    PENDING with `last_error='ttl_requeue'`; `attempts` is untouched. -/
def requeue_stale_running_jobs (s : Store) (ttl_seconds now : Nat) : Store :=
  { s with jobs := s.jobs.map fun j =>
      if j.status = JStatus.RUNNING ∧ j.updated_at + ttl_seconds < now then
        { j with status := .PENDING, last_error := some (str "ttl_requeue"),
                 updated_at := now }
      else j }

/-- `get_phone_by_member` (worker_validation.py lines 120-124): the member's
    `metadata->>'phone'`, and `""` when the member or the key is missing. -/
def get_phone_by_member (s : Store) (member_id : Nat) : Str :=
  match s.members.find? (fun m => m.id == member_id) with
  | some m => m.phone.getD []
  | none => []

/-- The phone value the SQL join `m.metadata->>'phone' = %s` compares
    (NULL never equals a parameter). -/
def member_phone (s : Store) (member_id : Nat) : Option Str :=
  (s.members.find? (fun m => m.id == member_id)).bind Member.phone

/-- The WHERE clause of `cancel_other_jobs_for_phone`: same member phone,
    different job id, still PENDING or RUNNING. -/
def cancel_hit (s : Store) (phone : Str) (exclude_job_id : Nat) (j : Job) : Bool :=
  decide (member_phone s j.member_id = some phone ∧ j.id ≠ exclude_job_id ∧
    (j.status = JStatus.PENDING ∨ j.status = JStatus.RUNNING))

/-- `cancel_other_jobs_for_phone` (worker_validation.py lines 281-296): with
    an empty phone do nothing and return 0; otherwise flip every other job of
    a member with that phone that is still PENDING or RUNNING to CANCELLED
    with `last_error='cancelled_by_other_success'`, returning how many rows
    were hit. -/
def cancel_other_jobs_for_phone (s : Store) (phone : Str) (exclude_job_id : Nat)
    (now : Nat) : Store × Nat :=
  if phone.isEmpty then (s, 0)
  else
    ({ s with jobs := s.jobs.map fun j =>
         if cancel_hit s phone exclude_job_id j then
           { j with status := .CANCELLED,
                    last_error := some (str "cancelled_by_other_success"),
                    updated_at := now }
         else j },
     (s.jobs.filter (cancel_hit s phone exclude_job_id)).length)

/-- `exists_succeeded_for_phone` (worker_validation.py lines 298-312): with
    an empty phone `False`; otherwise whether any job of a member with that
    phone is SUCCEEDED. -/
def exists_succeeded_for_phone (s : Store) (phone : Str) : Bool :=
  if phone.isEmpty then false
  else s.jobs.any fun j =>
    decide (member_phone s j.member_id = some phone ∧ j.status = JStatus.SUCCEEDED)

/-! ### The runner pipeline

One `work_loop` iteration over a claimed job (worker_validation.py lines
342-464), split into the claim phase, the pure processing phase and the
finalization phase.  The registry lookup (`buscar_sbcp`, an external
collaborator) is an input of type `Except Unit LookupResult`: `.error`
models the call throwing (`exec_erro`), `.ok` its returned dict (always a
non-empty, hence truthy, dict).  The wall-clock time the processing took is
the input `elapsed`; database errors around the member read/update are
outside the model. -/

/-- The fields of the fetched job row the loop body uses. -/
structure JobRow where
  id : Nat
  member_id : Nat
  attempts : Nat
deriving DecidableEq, Repr

/-- Result of the claim phase (lines 350-367). -/
inductive ClaimStep
  | idle
  | exceeded (row : JobRow)
  | claimed (row : JobRow)
deriving DecidableEq, Repr

/-- Claim phase (lines 350-367): fetch the next PENDING job; if its
    `attempts` already reached `MAX_ATTEMPTS`, finalize it FAILED with
    `'tentativas_excedidas'` and stop (no lookup, no member update);
    otherwise mark it RUNNING. -/
def claim_phase (s : Store) (max_attempts now : Nat) : Store × ClaimStep :=
  match fetch_next_job s with
  | none => (s, .idle)
  | some j =>
    let row : JobRow := ⟨j.id, j.member_id, j.attempts⟩
    if max_attempts ≤ j.attempts then
      (finalize_job s j.id .FAILED (some (str "tentativas_excedidas")) now,
       .exceeded row)
    else
      (mark_running s j.id j.attempts now, .claimed row)

/-- Outcome of the processing phase (lines 369-412). -/
structure ProcessOut where
  lookupCalled : Bool
  ok : Bool
  reason : Option Str
  statusLog : Str
  lastError : Option Str
  timedOut : Bool
deriving DecidableEq, Repr

/-- Processing phase (lines 369-412): read the member's expected document
    (already `.strip()`-ed at line 377); an empty document short-circuits
    with reason `documento_vazio` and no lookup; otherwise run the lookup,
    collect identifiers, match, and let the match override `ok` unless the
    lookup reported `sem_resultados_ou_layout_alterado`.  `timedOut` is the
    line-412 comparison `elapsed > TTL_SECONDS`. -/
def process_claim (docRaw : Str) (lookup : Except Unit LookupResult)
    (elapsed ttl_seconds : Nat) : ProcessOut :=
  let expected_doc := pyStrip docRaw
  if expected_doc.isEmpty then
    { lookupCalled := false, ok := false, reason := some (str "documento_vazio"),
      statusLog := str "sem_documento", lastError := none,
      timedOut := decide (ttl_seconds < elapsed) }
  else
    match lookup with
    | .error _ =>
      { lookupCalled := true, ok := false, reason := some (str "error_execucao"),
        statusLog := str "error_execucao", lastError := some (str "exec_erro"),
        timedOut := decide (ttl_seconds < elapsed) }
    | .ok r =>
      let extracted := collect_identifiers_from_result r
      let is_match := match_document expected_doc extracted
      if r.reason = some (str "sem_resultados_ou_layout_alterado") then
        { lookupCalled := true, ok := false, reason := r.reason,
          statusLog := str "sem_resultados", lastError := none,
          timedOut := decide (ttl_seconds < elapsed) }
      else if is_match then
        { lookupCalled := true, ok := true, reason := r.reason,
          statusLog := str "ok", lastError := none,
          timedOut := decide (ttl_seconds < elapsed) }
      else
        { lookupCalled := true, ok := false, reason := r.reason,
          statusLog := str "numero_registro_invalido", lastError := none,
          timedOut := decide (ttl_seconds < elapsed) }

/-- `update_member_after_result` (worker_validation.py lines 126-145), the
    control-flow-relevant part: the `validacao_acesso` text written on the
    member row — `'aprovado'` iff `result.get("ok")` is truthy, `'pendente'`
    otherwise.  It runs at line 416, before the timeout gate of line 425. -/
def member_status_txt (ok : Bool) : Str :=
  if ok then str "aprovado" else str "pendente"

/-- Python `x or default` on an optional string. -/
def py_or_str (a : Option Str) (d : Str) : Str :=
  match a with
  | some e => if e.isEmpty then d else e
  | none => d

/-- Line 448: `last_error = (last_error or "") + ("; " if last_error else "")
    + "timeout_ttl"`. -/
def timeout_last_error (le : Option Str) : Str :=
  (py_or_str le [] ++ (if (py_or_str le []).isEmpty then [] else str "; ")) ++
  str "timeout_ttl"

/-- Result of the finalization phase (lines 420-464).  `pendenteFlowSent`
    means the non-suppressed failure-notification path was taken (the worker
    then resolves a subscriber id and sends `FLOW_PENDENTE`);
    `aprovadoFlowSent` likewise for the success path. -/
structure FinalizeOut where
  store : Store
  finalStatus : JStatus
  finalLastError : Option Str
  cancelledCount : Nat
  aprovadoFlowSent : Bool
  pendenteFlowSent : Bool
  pendenteSuppressed : Bool
deriving DecidableEq, Repr

/-- Finalization phase (lines 420-464): on `ok` within the TTL finalize
    SUCCEEDED, cancel the sibling jobs of the member's phone and take the
    approved-notification path; otherwise record the timeout reason when
    applicable, then requeue to PENDING while `attempts + 1 < MAX_ATTEMPTS`,
    else finalize FAILED and take the failure-notification path unless a
    SUCCEEDED job already exists for the same phone. -/
def finalize_claim (s : Store) (row : JobRow) (p : ProcessOut)
    (max_attempts now : Nat) : FinalizeOut :=
  let phone := get_phone_by_member s row.member_id
  if p.ok && !p.timedOut then
    let s1 := finalize_job s row.id .SUCCEEDED none now
    let c := cancel_other_jobs_for_phone s1 phone row.id now
    { store := c.1, finalStatus := .SUCCEEDED, finalLastError := none,
      cancelledCount := c.2, aprovadoFlowSent := true,
      pendenteFlowSent := false, pendenteSuppressed := false }
  else
    let le := if p.timedOut then some (timeout_last_error p.lastError) else p.lastError
    let slog := if p.timedOut then str "timeout_ttl" else p.statusLog
    if row.attempts + 1 < max_attempts then
      let fle := py_or_str le (str "retry")
      { store := finalize_job s row.id .PENDING (some fle) now,
        finalStatus := .PENDING, finalLastError := some fle, cancelledCount := 0,
        aprovadoFlowSent := false, pendenteFlowSent := false,
        pendenteSuppressed := false }
    else
      let fle := py_or_str le (py_or_str (some slog) (str "erro_definitivo"))
      let s1 := finalize_job s row.id .FAILED (some fle) now
      let suppressed := exists_succeeded_for_phone s1 phone
      { store := s1, finalStatus := .FAILED, finalLastError := some fle,
        cancelledCount := 0, aprovadoFlowSent := false,
        pendenteFlowSent := !suppressed, pendenteSuppressed := suppressed }

/-- One full loop iteration over the fetched job (idle, exceeded, or claimed
    and processed): the composite of the three phases, also exposing the
    member-status text written by `update_member_after_result`. -/
structure IterOut where
  store : Store
  lookupCalled : Bool
  memberStatusTxt : Option Str
  finalStatus : Option JStatus
  finalLastError : Option Str
  cancelledCount : Nat
  aprovadoFlowSent : Bool
  pendenteFlowSent : Bool
  pendenteSuppressed : Bool
deriving DecidableEq, Repr

/-- The loop body for one poll cycle after the watchdog sweep
    (worker_validation.py lines 349-464). -/
def work_iteration (s : Store) (docRaw : Str) (lookup : Except Unit LookupResult)
    (elapsed ttl_seconds max_attempts now : Nat) : IterOut :=
  match claim_phase s max_attempts now with
  | (s1, .idle) =>
    { store := s1, lookupCalled := false, memberStatusTxt := none,
      finalStatus := none, finalLastError := none, cancelledCount := 0,
      aprovadoFlowSent := false, pendenteFlowSent := false,
      pendenteSuppressed := false }
  | (s1, .exceeded _) =>
    { store := s1, lookupCalled := false, memberStatusTxt := none,
      finalStatus := some .FAILED,
      finalLastError := some (str "tentativas_excedidas"), cancelledCount := 0,
      aprovadoFlowSent := false, pendenteFlowSent := false,
      pendenteSuppressed := false }
  | (s1, .claimed row) =>
    let p := process_claim docRaw lookup elapsed ttl_seconds
    let f := finalize_claim s1 row p max_attempts now
    { store := f.store, lookupCalled := p.lookupCalled,
      memberStatusTxt := some (member_status_txt p.ok),
      finalStatus := some f.finalStatus, finalLastError := f.finalLastError,
      cancelledCount := f.cancelledCount, aprovadoFlowSent := f.aprovadoFlowSent,
      pendenteFlowSent := f.pendenteFlowSent,
      pendenteSuppressed := f.pendenteSuppressed }

/-! ### Concurrent claiming under autocommit

`db()` (worker_validation.py lines 50-52) opens its connection with
`conn.autocommit = True`.  In autocommit mode every SQL statement commits on
its own: the row lock taken by `FOR UPDATE` inside `fetch_next_job` is
released the moment the SELECT statement ends, and the `with conn:` block
around lines 350-367 does not open a transaction that would extend it.  A
claim attempt is therefore a sequence of two independently atomic
statements — the SELECT of `fetch_next_job` and the UPDATE of
`mark_running` (or of the max-attempts `finalize_job`) — and concurrent
workers may interleave between them. -/

/-- Program counter of a claiming worker. -/
inductive WPc
  | atFetch | atMark | done
deriving DecidableEq, Repr

/-- Local state of a claiming worker: `claimed` is the job it proceeds to
    run after marking it RUNNING. -/
structure WorkerSt where
  pc : WPc
  fetched : Option JobRow := none
  claimed : Option JobRow := none
deriving DecidableEq, Repr

/-- One atomic statement of the claim block, executed by one worker. -/
def worker_step (s : Store) (w : WorkerSt) (max_attempts now : Nat) :
    Store × WorkerSt :=
  match w.pc with
  | .atFetch =>
    match fetch_next_job s with
    | some j =>
      (s, { w with pc := .atMark, fetched := some ⟨j.id, j.member_id, j.attempts⟩ })
    | none => (s, { w with pc := .done })
  | .atMark =>
    match w.fetched with
    | some row =>
      if max_attempts ≤ row.attempts then
        (finalize_job s row.id .FAILED (some (str "tentativas_excedidas")) now,
         { w with pc := .done })
      else
        (mark_running s row.id row.attempts now,
         { w with pc := .done, claimed := some row })
    | none => (s, { w with pc := .done })
  | .done => (s, w)

/-- Run a schedule: each entry names the worker that executes its next
    atomic statement. -/
def run_schedule (s : Store) (ws : List WorkerSt) (sched : List Nat)
    (max_attempts now : Nat) : Store × List WorkerSt :=
  match sched with
  | [] => (s, ws)
  | i :: rest =>
    match ws.get? i with
    | some w =>
      let sw := worker_step s w max_attempts now
      run_schedule sw.1 (ws.set i sw.2) rest max_attempts now
    | none => run_schedule s ws rest max_attempts now

/-! ### Character-class lemmas -/

theorem isDigitCh_bounds {c : Char} (h : isDigitCh c = true) :
    48 ≤ c.toNat ∧ c.toNat ≤ 57 := by
  simpa [isDigitCh] using h

theorem isUpperAZ_bounds {c : Char} (h : isUpperAZ c = true) :
    65 ≤ c.toNat ∧ c.toNat ≤ 90 := by
  simpa [isUpperAZ] using h

theorem digit_not_ws {c : Char} (h : isDigitCh c = true) : isPyWs c = false := by
  have hb := isDigitCh_bounds h
  simp [isPyWs]; omega

theorem digit_not_upperAZ {c : Char} (h : isDigitCh c = true) :
    isUpperAZ c = false := by
  have hb := isDigitCh_bounds h
  simp [isUpperAZ]; omega

theorem digit_ne_nl {c : Char} (h : isDigitCh c = true) : (c.toNat == 10) = false := by
  have hb := isDigitCh_bounds h
  simp; omega

theorem toUpper_of_lt97 {c : Char} (h : c.toNat < 97) : c.toUpper = c := by
  show (if c.toNat ≥ 97 ∧ c.toNat ≤ 122 then Char.ofNat (c.toNat - 32) else c) = c
  rw [if_neg (by omega)]

theorem digit_toUpper {c : Char} (h : isDigitCh c = true) : c.toUpper = c :=
  toUpper_of_lt97 (by have := isDigitCh_bounds h; omega)

theorem upperAZ_toUpper {c : Char} (h : isUpperAZ c = true) : c.toUpper = c :=
  toUpper_of_lt97 (by have := isUpperAZ_bounds h; omega)

theorem upperAZ_not_ws {c : Char} (h : isUpperAZ c = true) : isPyWs c = false := by
  have hb := isUpperAZ_bounds h
  simp [isPyWs]; omega

/-! ### Strip, upper and filter on digit/region strings -/

theorem dropWhile_eq_self {p : Char → Bool} {l : Str}
    (h : ∀ c ∈ l, p c = false) : l.dropWhile p = l := by
  cases l with
  | nil => rfl
  | cons a t =>
    rw [List.dropWhile_cons, if_neg (by simp [h a (List.mem_cons_self a t)])]

theorem pyStrip_eq_self {l : Str} (h : ∀ c ∈ l, isPyWs c = false) :
    pyStrip l = l := by
  unfold pyStrip
  rw [dropWhile_eq_self h, dropWhile_eq_self, List.reverse_reverse]
  intro c hc
  exact h c (List.mem_reverse.mp hc)

theorem pyUpper_eq_self {l : Str} (h : ∀ c ∈ l, c.toUpper = c) :
    pyUpper l = l := by
  induction l with
  | nil => rfl
  | cons a t ih =>
    unfold pyUpper at *
    rw [List.map_cons, h a (List.mem_cons_self a t),
        ih (fun c hc => h c (List.mem_cons_of_mem a hc))]

theorem only_digits_eq_self {l : Str} (h : ∀ c ∈ l, isDigitCh c = true) :
    only_digits l = l :=
  List.filter_eq_self.mpr h

theorem norm_digits {n : Str} (h : ∀ c ∈ n, isDigitCh c = true) :
    pyUpper (pyStrip n) = n := by
  rw [pyStrip_eq_self (fun c hc => digit_not_ws (h c hc)),
      pyUpper_eq_self (fun c hc => digit_toUpper (h c hc))]

/-! ### `split_number_uf` on canonical shapes -/

theorem regexNumUf_digits {n : Str} (h : ∀ c ∈ n, isDigitCh c = true) :
    regexNumUf n = none := by
  rcases hr : n.reverse with _ | ⟨u2, _ | ⟨u1, _ | ⟨sep, g⟩⟩⟩ <;>
    simp only [regexNumUf, hr]
  have hu2 : u2 ∈ n := List.mem_reverse.mp (by rw [hr]; simp)
  rw [if_neg]
  simp [digit_not_upperAZ (h u2 hu2)]

theorem split_number_uf_digits {n : Str} (hne : n ≠ [])
    (h : ∀ c ∈ n, isDigitCh c = true) : split_number_uf n = (n, none) := by
  unfold split_number_uf
  rw [norm_digits h, if_neg (by simp [hne]), regexNumUf_digits h,
      only_digits_eq_self h]

theorem split_number_uf_digits_region {n : Str} {u1 u2 : Char} (hne : n ≠ [])
    (h : ∀ c ∈ n, isDigitCh c = true)
    (h1 : isUpperAZ u1 = true) (h2 : isUpperAZ u2 = true) :
    split_number_uf (n ++ '-' :: [u1, u2]) = (n, some [u1, u2]) := by
  have hups : ∀ c ∈ n ++ '-' :: [u1, u2], c.toUpper = c := by
    intro c hc
    rcases List.mem_append.mp hc with hl | hr
    · exact digit_toUpper (h c hl)
    · simp only [List.mem_cons, List.not_mem_nil, or_false] at hr
      rcases hr with rfl | rfl | rfl
      · decide
      · exact upperAZ_toUpper h1
      · exact upperAZ_toUpper h2
  have hws : ∀ c ∈ n ++ '-' :: [u1, u2], isPyWs c = false := by
    intro c hc
    rcases List.mem_append.mp hc with hl | hr
    · exact digit_not_ws (h c hl)
    · simp only [List.mem_cons, List.not_mem_nil, or_false] at hr
      rcases hr with rfl | rfl | rfl
      · decide
      · exact upperAZ_not_ws h1
      · exact upperAZ_not_ws h2
  have hrev : (n ++ '-' :: [u1, u2]).reverse = u2 :: u1 :: '-' :: n.reverse := by
    simp
  have hnl : (n.reverse.any fun c => c.toNat == 10) = false := by
    rw [List.any_eq_false]
    intro c hc
    simp [digit_ne_nl (h c (List.mem_reverse.mp hc))]
  have hsep : isSepCh '-' = true := by decide
  have hre : regexNumUf (n ++ '-' :: [u1, u2]) = some (n.reverse.reverse, u1, u2) := by
    unfold regexNumUf
    rw [hrev]
    show (if (isUpperAZ u1 && isUpperAZ u2 && isSepCh '-' && !(n.reverse).isEmpty &&
              !(n.reverse.any fun c => c.toNat == 10)) = true
          then some (n.reverse.reverse, u1, u2) else none) =
        some (n.reverse.reverse, u1, u2)
    rw [if_pos (by simp [h1, h2, hnl, hne, hsep])]
  unfold split_number_uf
  rw [pyStrip_eq_self hws, pyUpper_eq_self hups, if_neg (by simp), hre,
      List.reverse_reverse]
  show (only_digits n, some [u1, u2]) = (n, some [u1, u2])
  rw [only_digits_eq_self h]

/-! ### The extracted identifier set -/

theorem split_fst_digits (v : Str) :
    ∀ c ∈ (split_number_uf v).1, isDigitCh c = true := by
  intro c hc
  simp only [split_number_uf] at hc
  split at hc
  · simp at hc
  · split at hc
    · exact (List.mem_filter.mp hc).2
    · exact (List.mem_filter.mp hc).2

theorem mem_candidate_forms {f v : Str} (hf : f ∈ candidate_forms v) :
    ∃ m u, (f = m ∨ f = m ++ '-' :: u) ∧ m ≠ [] ∧ ∀ c ∈ m, isDigitCh c = true := by
  unfold candidate_forms at hf
  split at hf
  · simp at hf
  · rcases hs : split_number_uf v with ⟨num, uf⟩
    rw [hs] at hf
    have hd : ∀ c ∈ num, isDigitCh c = true := by
      have h0 := split_fst_digits v
      rw [hs] at h0
      exact h0
    cases uf with
    | none =>
      simp at hf
      exact ⟨num, [], Or.inl hf.2, hf.1, hd⟩
    | some u =>
      simp at hf
      rcases hf.2 with h | h
      · exact ⟨num, [], Or.inl h, hf.1, hd⟩
      · exact ⟨num, u, Or.inr h, hf.1, hd⟩

theorem mem_extractedOf {f : Str} {ids : List Str} (h : f ∈ extractedOf ids) :
    ∃ m u, (f = m ∨ f = m ++ '-' :: u) ∧ m ≠ [] ∧ ∀ c ∈ m, isDigitCh c = true := by
  unfold extractedOf at h
  rw [List.mem_flatMap] at h
  obtain ⟨v, _, hf⟩ := h
  exact mem_candidate_forms hf

theorem nil_not_mem_extractedOf {ids : List Str} : ([] : Str) ∉ extractedOf ids := by
  intro h
  obtain ⟨m, u, hor, hm, _⟩ := mem_extractedOf h
  rcases hor with h1 | h2
  · exact hm h1.symm
  · rw [eq_comm, List.append_eq_nil] at h2
    exact List.cons_ne_nil _ _ h2.2

theorem dash_cons_not_mem_extractedOf {u : Str} {ids : List Str} :
    ('-' :: u) ∉ extractedOf ids := by
  intro h
  obtain ⟨m, u', hor, hm, hd⟩ := mem_extractedOf h
  rcases hor with h1 | h2
  · have : isDigitCh '-' = true := hd '-' (by rw [← h1]; exact List.mem_cons_self _ _)
    exact absurd this (by decide)
  · cases m with
    | nil => exact hm rfl
    | cons c t =>
      rw [List.cons_append] at h2
      have hc : '-' = c := (List.cons_eq_cons.mp h2).1
      have : isDigitCh c = true := hd c (List.mem_cons_self _ _)
      rw [← hc] at this
      exact absurd this (by decide)

theorem dash_append_inj {n1 n2 a b : Str}
    (h1 : ∀ c ∈ n1, isDigitCh c = true) (h2 : ∀ c ∈ n2, isDigitCh c = true)
    (he : n1 ++ '-' :: a = n2 ++ '-' :: b) : n1 = n2 := by
  induction n1 generalizing n2 with
  | nil =>
    cases n2 with
    | nil => rfl
    | cons c t =>
      simp only [List.nil_append, List.cons_append, List.cons_eq_cons] at he
      have : isDigitCh c = true := h2 c (List.mem_cons_self _ _)
      rw [← he.1] at this
      exact absurd this (by decide)
  | cons c t ih =>
    cases n2 with
    | nil =>
      simp only [List.nil_append, List.cons_append, List.cons_eq_cons] at he
      have : isDigitCh c = true := h1 c (List.mem_cons_self _ _)
      rw [he.1] at this
      exact absurd this (by decide)
    | cons c' t' =>
      simp only [List.cons_append, List.cons_eq_cons] at he
      rw [he.1,
          ih (fun x hx => h1 x (List.mem_cons_of_mem _ hx))
             (fun x hx => h2 x (List.mem_cons_of_mem _ hx)) he.2]

theorem candidate_forms_digits {n : Str} (hne : n ≠ [])
    (h : ∀ c ∈ n, isDigitCh c = true) : candidate_forms n = [n] := by
  unfold candidate_forms
  rw [if_neg (by simp [hne]), split_number_uf_digits hne h]
  show (if n.isEmpty = true then [] else [n]) = [n]
  rw [if_neg (by simp [hne])]

theorem candidate_forms_digits_region {n : Str} {u1 u2 : Char} (hne : n ≠ [])
    (h : ∀ c ∈ n, isDigitCh c = true)
    (h1 : isUpperAZ u1 = true) (h2 : isUpperAZ u2 = true) :
    candidate_forms (n ++ '-' :: [u1, u2]) = [n, n ++ '-' :: [u1, u2]] := by
  unfold candidate_forms
  rw [if_neg (by simp), split_number_uf_digits_region hne h h1 h2]
  show (if n.isEmpty = true then [] else [n, n ++ '-' :: [u1, u2]]) =
      [n, n ++ '-' :: [u1, u2]]
  rw [if_neg (by simp [hne])]

theorem extractedOf_singleton (v : Str) : extractedOf [v] = candidate_forms v := by
  unfold extractedOf
  simp

theorem match_document_self {n : Str} (hne : n ≠ [])
    (h : ∀ c ∈ n, isDigitCh c = true) :
    match_document n (extractedOf [n]) = true := by
  unfold match_document
  rw [if_neg (by simp [hne]), split_number_uf_digits hne h]
  show (extractedOf [n]).contains n = true
  rw [extractedOf_singleton, candidate_forms_digits hne h]
  simp

theorem match_document_region_expected {n : Str} {u1 u2 : Char} (hne : n ≠ [])
    (h : ∀ c ∈ n, isDigitCh c = true)
    (h1 : isUpperAZ u1 = true) (h2 : isUpperAZ u2 = true) :
    match_document (n ++ '-' :: [u1, u2]) (extractedOf [n]) = true := by
  unfold match_document
  rw [if_neg (by simp), split_number_uf_digits_region hne h h1 h2,
      extractedOf_singleton, candidate_forms_digits hne h]
  show (if ([n] : List Str).contains (n ++ '-' :: [u1, u2]) = true
        then true else ([n] : List Str).contains n) = true
  split
  · rfl
  · simp

theorem match_document_region_extracted {n : Str} {u1 u2 : Char} (hne : n ≠ [])
    (h : ∀ c ∈ n, isDigitCh c = true)
    (h1 : isUpperAZ u1 = true) (h2 : isUpperAZ u2 = true) :
    match_document n (extractedOf [n ++ '-' :: [u1, u2]]) = true := by
  unfold match_document
  rw [if_neg (by simp [hne]), split_number_uf_digits hne h,
      extractedOf_singleton, candidate_forms_digits_region hne h h1 h2]
  show ([n, n ++ '-' :: [u1, u2]] : List Str).contains n = true
  simp

theorem match_document_diff_bare {n1 n2 : Str} (hne1 : n1 ≠ []) (hne2 : n2 ≠ [])
    (hd1 : ∀ c ∈ n1, isDigitCh c = true) (hd2 : ∀ c ∈ n2, isDigitCh c = true)
    (hne : n1 ≠ n2) :
    match_document n1 (extractedOf [n2]) = false := by
  unfold match_document
  rw [if_neg (by simp [hne1]), split_number_uf_digits hne1 hd1,
      extractedOf_singleton, candidate_forms_digits hne2 hd2]
  show ([n2] : List Str).contains n1 = false
  simp [hne]

theorem match_document_diff_region {n1 n2 : Str} {r11 r12 r21 r22 : Char}
    (hne1 : n1 ≠ []) (hne2 : n2 ≠ [])
    (hd1 : ∀ c ∈ n1, isDigitCh c = true) (hd2 : ∀ c ∈ n2, isDigitCh c = true)
    (h11 : isUpperAZ r11 = true) (h12 : isUpperAZ r12 = true)
    (h21 : isUpperAZ r21 = true) (h22 : isUpperAZ r22 = true)
    (hne : n1 ≠ n2) :
    match_document (n1 ++ '-' :: [r11, r12])
      (extractedOf [n2 ++ '-' :: [r21, r22]]) = false := by
  have hx1 : n1 ++ '-' :: [r11, r12] ≠ n2 := by
    intro he
    have hm : ('-' : Char) ∈ n2 := by
      rw [← he]
      exact List.mem_append_right n1 (List.mem_cons_self _ _)
    exact absurd (hd2 '-' hm) (by decide)
  have hx2 : n1 ++ '-' :: [r11, r12] ≠ n2 ++ '-' :: [r21, r22] := by
    intro he
    exact hne (dash_append_inj hd1 hd2 he)
  have hx3 : n1 ≠ n2 ++ '-' :: [r21, r22] := by
    intro he
    have hm : ('-' : Char) ∈ n1 := by
      rw [he]
      exact List.mem_append_right n2 (List.mem_cons_self _ _)
    exact absurd (hd1 '-' hm) (by decide)
  unfold match_document
  rw [if_neg (by simp), split_number_uf_digits_region hne1 hd1 h11 h12,
      extractedOf_singleton, candidate_forms_digits_region hne2 hd2 h21 h22]
  show (if ([n2, n2 ++ '-' :: [r21, r22]] : List Str).contains
            (n1 ++ '-' :: [r11, r12]) = true
        then true
        else ([n2, n2 ++ '-' :: [r21, r22]] : List Str).contains n1) = false
  rw [if_neg (by simp [hx1, hx2])]
  simp [hne, hx3]

/-- The matcher never fires when the expected value normalizes to an empty
    number, as long as the extracted set was built by
    `collect_identifiers_from_result`-style pooling (such a set never
    contains an empty number). -/
theorem match_document_empty_number {e : Str} {ids : List Str}
    (hnum : (split_number_uf e).1 = []) :
    match_document e (extractedOf ids) = false := by
  unfold match_document
  split
  · rfl
  · rcases hs : split_number_uf e with ⟨num, uf⟩
    rw [hs] at hnum
    simp only at hnum
    subst hnum
    cases uf with
    | none =>
      show (extractedOf ids).contains [] = false
      rw [← Bool.not_eq_true]
      intro hc
      exact nil_not_mem_extractedOf (List.elem_iff.mp hc)
    | some u =>
      show (if (extractedOf ids).contains ([] ++ '-' :: u) = true
            then true else (extractedOf ids).contains []) = false
      rw [if_neg, ← Bool.not_eq_true]
      · intro hc
        exact nil_not_mem_extractedOf (List.elem_iff.mp hc)
      · rw [List.nil_append]
        intro hc
        exact dash_cons_not_mem_extractedOf (List.elem_iff.mp hc)

/-! ### Pipeline lemmas -/

theorem process_claim_timedOut (docRaw : Str) (lookup : Except Unit LookupResult)
    (elapsed ttl : Nat) :
    (process_claim docRaw lookup elapsed ttl).timedOut = decide (ttl < elapsed) := by
  simp only [process_claim]
  split
  · rfl
  · split
    · rfl
    · split
      · rfl
      · split <;> rfl

theorem timeout_last_error_ne_nil (le : Option Str) :
    (timeout_last_error le).isEmpty = false := by
  simp [timeout_last_error, str]

theorem py_or_str_some_ne {x d : Str} (hx : x.isEmpty = false) :
    py_or_str (some x) d = x := by
  show (if x.isEmpty = true then d else x) = x
  rw [hx, if_neg Bool.false_ne_true]

theorem finalize_fail_status (s : Store) (row : JobRow) (p : ProcessOut)
    (max_attempts now : Nat) (hfail : (p.ok && !p.timedOut) = false) :
    (finalize_claim s row p max_attempts now).finalStatus = .PENDING ∨
    (finalize_claim s row p max_attempts now).finalStatus = .FAILED := by
  unfold finalize_claim
  rw [hfail, if_neg Bool.false_ne_true]
  split <;> split
  · exact Or.inl rfl
  · exact Or.inr rfl
  · exact Or.inl rfl
  · exact Or.inr rfl

theorem finalize_timedOut_lastError (s : Store) (row : JobRow) (p : ProcessOut)
    (max_attempts now : Nat) (hp : p.timedOut = true) :
    ∃ pre, (finalize_claim s row p max_attempts now).finalLastError =
      some (pre ++ str "timeout_ttl") := by
  have hcond : (p.ok && !p.timedOut) = false := by rw [hp]; simp
  unfold finalize_claim
  rw [hcond, if_neg Bool.false_ne_true, hp]
  rw [if_pos (rfl : true = true), if_pos (rfl : true = true)]
  split
  · exact ⟨_, congrArg some (py_or_str_some_ne (timeout_last_error_ne_nil _))⟩
  · exact ⟨_, congrArg some (py_or_str_some_ne (timeout_last_error_ne_nil _))⟩

theorem finalize_fail_gate (s : Store) (row : JobRow) (p : ProcessOut)
    (max_attempts now : Nat) (hfail : (p.ok && !p.timedOut) = false) :
    ((finalize_claim s row p max_attempts now).finalStatus = .PENDING ↔
      row.attempts + 1 < max_attempts) ∧
    (max_attempts ≤ row.attempts + 1 →
      (finalize_claim s row p max_attempts now).finalStatus = .FAILED) := by
  unfold finalize_claim
  rw [hfail, if_neg Bool.false_ne_true]
  constructor
  · split
    · split
      · next hlt => exact iff_of_true rfl hlt
      · next hlt => exact iff_of_false (fun h => JStatus.noConfusion h) hlt
    · split
      · next hlt => exact iff_of_true rfl hlt
      · next hlt => exact iff_of_false (fun h => JStatus.noConfusion h) hlt
  · intro hge
    split
    · rw [if_neg (by omega)]
    · rw [if_neg (by omega)]

theorem forall2_map_self {α : Type} {P : α → α → Prop} (l : List α) (f : α → α)
    (h : ∀ x ∈ l, P x (f x)) : List.Forall₂ P l (l.map f) := by
  rw [List.forall₂_map_right_iff]
  exact List.forall₂_same.mpr h

theorem member_phone_congr {s s' : Store} (h : s'.members = s.members)
    (mid : Nat) : member_phone s' mid = member_phone s mid := by
  unfold member_phone
  rw [h]

/-- `exists_succeeded_for_phone` with a non-empty phone is exactly the
    existence of a SUCCEEDED job whose member carries that phone. -/
theorem exists_succeeded_iff {s : Store} {phone : Str} (hph : phone ≠ []) :
    exists_succeeded_for_phone s phone = true ↔
      ∃ jb ∈ s.jobs, member_phone s jb.member_id = some phone ∧
        jb.status = JStatus.SUCCEEDED := by
  unfold exists_succeeded_for_phone
  rw [if_neg (by simpa using hph), List.any_eq_true]
  constructor
  · rintro ⟨x, hx, hdx⟩
    exact ⟨x, hx, of_decide_eq_true hdx⟩
  · rintro ⟨x, hx, h1, h2⟩
    exact ⟨x, hx, decide_eq_true ⟨h1, h2⟩⟩

/-- The terminal-FAILED branch of `finalize_claim`: the suppression flag is
    the succeeded-sibling check on the post-finalize store, the
    failure-notification flag is its negation, and the members table is
    untouched. -/
theorem finalize_fail_terminal_spec (s : Store) (row : JobRow) (p : ProcessOut)
    (max_attempts now : Nat) (hcond : (p.ok && !p.timedOut) = false)
    (hterm : ¬(row.attempts + 1 < max_attempts)) :
    (finalize_claim s row p max_attempts now).pendenteSuppressed =
      exists_succeeded_for_phone (finalize_claim s row p max_attempts now).store
        (get_phone_by_member s row.member_id) ∧
    (finalize_claim s row p max_attempts now).pendenteFlowSent =
      !(finalize_claim s row p max_attempts now).pendenteSuppressed ∧
    (finalize_claim s row p max_attempts now).store.members = s.members := by
  unfold finalize_claim
  rw [hcond, if_neg Bool.false_ne_true, if_neg hterm]
  exact ⟨rfl, rfl, rfl⟩

/-! ### Claim theorems -/

/-- C1: the spec requires that with exactly one PENDING job and N concurrent
    claim attempts exactly one claimer receives the job.  The code opens its
    connection with `autocommit = True` (worker_validation.py line 52), so the
    `FOR UPDATE SKIP LOCKED` row lock of `fetch_next_job` is released when the
    SELECT statement ends and does not persist until `mark_running`: in the
    interleaving fetch(A), fetch(B), mark(A), mark(B) over a store holding
    exactly one PENDING job, both workers fetch job 1 and both proceed to run
    it — two claimers receive the job, refuting the claimed exclusivity. -/
theorem C1_concurrent_double_claim :
    (run_schedule ⟨[⟨1, 1, .PENDING, 0, none, 0⟩], []⟩
        [⟨.atFetch, none, none⟩, ⟨.atFetch, none, none⟩] [0, 1, 0, 1] 3 5).2.map
      WorkerSt.claimed = [some ⟨1, 1, 0⟩, some ⟨1, 1, 0⟩] ∧
    (run_schedule ⟨[⟨1, 1, .PENDING, 0, none, 0⟩], []⟩
        [⟨.atFetch, none, none⟩, ⟨.atFetch, none, none⟩] [0, 1, 0, 1] 3 5).1.jobs.map
      Job.status = [.RUNNING] := by
  constructor
  · decide
  · decide

/-- C3: the spec requires finalize to be conditioned on the row still being
    RUNNING and owned by the finalizing Runner, so that a job cancelled by the
    Dedup Coordinator keeps its CANCELLED status.  `finalize_job`'s UPDATE is
    keyed on `id` alone, so when the Runner of job 1 — cancelled mid-flight —
    reaches its retry finalization, the CANCELLED job is moved back to
    PENDING (resurrected), contradicting the claim. -/
theorem C3_finalize_resurrects_cancelled :
    ((finalize_claim
        ⟨[⟨1, 1, .CANCELLED, 1, some (str "cancelled_by_other_success"), 0⟩],
          [⟨1, none⟩]⟩
        ⟨1, 1, 1⟩
        (process_claim (str "12345") (Except.ok ⟨false, none, none⟩) 10 120)
        3 20).store.jobs.map Job.status) = [.PENDING] := by
  decide

/-- C7: the spec requires the subject's validation status to stay pending on
    a timed-out attempt.  `update_member_after_result` runs at line 416,
    before the line-425 timeout gate, keyed on `result["ok"]` alone: a claimed
    job whose lookup matched but whose processing exceeded the TTL writes
    `validacao_acesso='aprovado'` on the member while the job itself is
    requeued to PENDING — the subject is marked approved on a non-SUCCEEDED
    outcome, contradicting the claim. -/
theorem C7_member_approved_despite_timeout :
    (work_iteration ⟨[⟨1, 1, .PENDING, 0, none, 0⟩], [⟨1, none⟩]⟩ (str "12345")
        (Except.ok ⟨true, none, some { crm_padrao := some (str "12345") }⟩)
        121 120 3 5).memberStatusTxt = some (str "aprovado") ∧
    (work_iteration ⟨[⟨1, 1, .PENDING, 0, none, 0⟩], [⟨1, none⟩]⟩ (str "12345")
        (Except.ok ⟨true, none, some { crm_padrao := some (str "12345") }⟩)
        121 120 3 5).finalStatus = some .PENDING ∧
    (work_iteration ⟨[⟨1, 1, .PENDING, 0, none, 0⟩], [⟨1, none⟩]⟩ (str "12345")
        (Except.ok ⟨true, none, some { crm_padrao := some (str "12345") }⟩)
        121 120 3 5).finalLastError = some (str "timeout_ttl") := by
  refine ⟨?_, ?_, ?_⟩ <;> decide

/-- C8 (counterexample): the claim states that a sibling still PENDING or
    RUNNING is cancelled with reason `cancelled_by_sibling_success`.  On a
    concrete store with two jobs sharing phone `+551199999`, job 1's success
    does cancel job 2, but the recorded reason is the string
    `cancelled_by_other_success`, which differs from the reason the claim
    names. -/
theorem C8_cancel_reason_counterexample :
    ((finalize_claim
        ⟨[⟨1, 1, .RUNNING, 1, none, 0⟩, ⟨2, 2, .PENDING, 0, none, 0⟩],
          [⟨1, some (str "+551199999")⟩, ⟨2, some (str "+551199999")⟩]⟩
        ⟨1, 1, 0⟩
        (process_claim (str "12345")
          (Except.ok ⟨true, none, some { crm_padrao := some (str "12345") }⟩) 1 120)
        3 9).store.jobs.map (fun j => (j.status, j.last_error)))
      = [(.SUCCEEDED, none), (.CANCELLED, some (str "cancelled_by_other_success"))] ∧
    str "cancelled_by_other_success" ≠ str "cancelled_by_sibling_success" := by
  constructor
  · decide
  · decide

/-- C2: whenever the processing of a claimed job took wall-clock time
    strictly greater than `ttlSeconds` — no matter what the lookup returned,
    in particular even on a matching identifier — the job is finalized to
    PENDING (requeue) or FAILED, never SUCCEEDED, and the recorded
    `last_error` ends with the timeout reason `timeout_ttl`. -/
theorem C2_timeout_forces_failure (s : Store) (row : JobRow) (docRaw : Str)
    (lookup : Except Unit LookupResult) (elapsed ttl max_attempts now : Nat)
    (h : ttl < elapsed) :
    ((finalize_claim s row (process_claim docRaw lookup elapsed ttl)
        max_attempts now).finalStatus = .PENDING ∨
     (finalize_claim s row (process_claim docRaw lookup elapsed ttl)
        max_attempts now).finalStatus = .FAILED) ∧
    ∃ pre, (finalize_claim s row (process_claim docRaw lookup elapsed ttl)
        max_attempts now).finalLastError = some (pre ++ str "timeout_ttl") := by
  have hp : (process_claim docRaw lookup elapsed ttl).timedOut = true := by
    rw [process_claim_timedOut]
    exact decide_eq_true h
  have hcond : ((process_claim docRaw lookup elapsed ttl).ok &&
      !(process_claim docRaw lookup elapsed ttl).timedOut) = false := by
    rw [hp]
    simp
  exact ⟨finalize_fail_status _ _ _ _ _ hcond,
         finalize_timedOut_lastError _ _ _ _ _ hp⟩

theorem C2_timeout_forces_failure_witness :
    120 < 121 ∧
    (((finalize_claim ⟨[], []⟩ ⟨1, 1, 0⟩
        (process_claim (str "12345")
          (Except.ok ⟨true, none, some { crm_padrao := some (str "12345") }⟩)
          121 120) 3 0).finalStatus = .PENDING ∨
      (finalize_claim ⟨[], []⟩ ⟨1, 1, 0⟩
        (process_claim (str "12345")
          (Except.ok ⟨true, none, some { crm_padrao := some (str "12345") }⟩)
          121 120) 3 0).finalStatus = .FAILED) ∧
     ∃ pre, (finalize_claim ⟨[], []⟩ ⟨1, 1, 0⟩
        (process_claim (str "12345")
          (Except.ok ⟨true, none, some { crm_padrao := some (str "12345") }⟩)
          121 120) 3 0).finalLastError = some (pre ++ str "timeout_ttl")) :=
  ⟨by decide,
   C2_timeout_forces_failure ⟨[], []⟩ ⟨1, 1, 0⟩ (str "12345")
     (Except.ok ⟨true, none, some { crm_padrao := some (str "12345") }⟩)
     121 120 3 0 (by decide)⟩

/-- C4: for every non-empty digit string and two-letter region code, the
    matcher accepts the bare number against itself, a region-qualified
    expected value against the bare extracted number, and a bare expected
    number against a region-qualified extracted identifier (the extracted
    set being the candidate-form pool of the lookup's identifiers); two
    different numbers never match, with or without region codes, and in
    particular `matches("12345-MG", {"99999-MG"})` is false. -/
theorem C4_matcher_region_advisory (n n1 n2 : Str) (u1 u2 r11 r12 r21 r22 : Char)
    (hn : n ≠ []) (hnd : ∀ c ∈ n, isDigitCh c = true)
    (hu1 : isUpperAZ u1 = true) (hu2 : isUpperAZ u2 = true)
    (h1 : n1 ≠ []) (h1d : ∀ c ∈ n1, isDigitCh c = true)
    (h2 : n2 ≠ []) (h2d : ∀ c ∈ n2, isDigitCh c = true)
    (h11 : isUpperAZ r11 = true) (h12 : isUpperAZ r12 = true)
    (h21 : isUpperAZ r21 = true) (h22 : isUpperAZ r22 = true)
    (h12ne : n1 ≠ n2) :
    match_document n (extractedOf [n]) = true ∧
    match_document (n ++ '-' :: [u1, u2]) (extractedOf [n]) = true ∧
    match_document n (extractedOf [n ++ '-' :: [u1, u2]]) = true ∧
    match_document n1 (extractedOf [n2]) = false ∧
    match_document (n1 ++ '-' :: [r11, r12])
      (extractedOf [n2 ++ '-' :: [r21, r22]]) = false ∧
    match_document (str "12345-MG") (extractedOf [str "99999-MG"]) = false :=
  ⟨match_document_self hn hnd,
   match_document_region_expected hn hnd hu1 hu2,
   match_document_region_extracted hn hnd hu1 hu2,
   match_document_diff_bare h1 h2 h1d h2d h12ne,
   match_document_diff_region h1 h2 h1d h2d h11 h12 h21 h22 h12ne,
   by decide⟩

theorem C4_matcher_region_advisory_witness :
    (str "12345" ≠ [] ∧ (∀ c ∈ str "12345", isDigitCh c = true) ∧
     isUpperAZ 'M' = true ∧ isUpperAZ 'G' = true ∧
     str "99999" ≠ [] ∧ (∀ c ∈ str "99999", isDigitCh c = true) ∧
     str "12345" ≠ str "99999") ∧
    (match_document (str "12345") (extractedOf [str "12345"]) = true ∧
     match_document (str "12345" ++ '-' :: ['M', 'G'])
       (extractedOf [str "12345"]) = true ∧
     match_document (str "12345")
       (extractedOf [str "12345" ++ '-' :: ['M', 'G']]) = true ∧
     match_document (str "12345") (extractedOf [str "99999"]) = false ∧
     match_document (str "12345" ++ '-' :: ['M', 'G'])
       (extractedOf [str "99999" ++ '-' :: ['M', 'G']]) = false ∧
     match_document (str "12345-MG") (extractedOf [str "99999-MG"]) = false) :=
  ⟨by decide,
   C4_matcher_region_advisory (str "12345") (str "12345") (str "99999")
     'M' 'G' 'M' 'G' 'M' 'G'
     (by decide) (by decide) (by decide) (by decide) (by decide) (by decide)
     (by decide) (by decide) (by decide) (by decide) (by decide) (by decide)
     (by decide)⟩

/-- C5: no store operation ever decreases a job's `attempts` counter
    (the claim's `mark_running` bumps it to one more than the value it read,
    finalize/watchdog/cancel leave it untouched); a job fetched with
    `attempts` already at `MAX_ATTEMPTS` is finalized FAILED with
    `tentativas_excedidas` directly, with no registry lookup; and on a
    retryable failure the job is requeued to PENDING exactly when the
    post-claim attempts value `attempts + 1` is still below `MAX_ATTEMPTS`,
    and finalized FAILED otherwise. -/
theorem C5_attempts_monotone_and_gated
    (s : Store) (job_id att now ttl ex : Nat) (stv : JStatus) (le : Option Str)
    (phone : Str) (row : JobRow) (p : ProcessOut)
    (docRaw : Str) (lookup : Except Unit LookupResult)
    (elapsed max_attempts : Nat) (j : Job)
    (hmark : ∀ j0 ∈ s.jobs, j0.id = job_id → j0.attempts ≤ att)
    (hfetch : fetch_next_job s = some j)
    (hmax : max_attempts ≤ j.attempts)
    (hfail : p.ok = false ∨ p.timedOut = true) :
    List.Forall₂ (fun a b => a.attempts ≤ b.attempts) s.jobs
      (mark_running s job_id att now).jobs ∧
    List.Forall₂ (fun a b => a.attempts ≤ b.attempts) s.jobs
      (finalize_job s job_id stv le now).jobs ∧
    List.Forall₂ (fun a b => a.attempts ≤ b.attempts) s.jobs
      (requeue_stale_running_jobs s ttl now).jobs ∧
    List.Forall₂ (fun a b => a.attempts ≤ b.attempts) s.jobs
      (cancel_other_jobs_for_phone s phone ex now).1.jobs ∧
    (work_iteration s docRaw lookup elapsed ttl max_attempts now).lookupCalled
      = false ∧
    (work_iteration s docRaw lookup elapsed ttl max_attempts now).finalStatus
      = some .FAILED ∧
    (work_iteration s docRaw lookup elapsed ttl max_attempts now).finalLastError
      = some (str "tentativas_excedidas") ∧
    (∀ j0 ∈ (work_iteration s docRaw lookup elapsed ttl max_attempts now).store.jobs,
      j0.id = j.id → j0.status = .FAILED) ∧
    ((finalize_claim s row p max_attempts now).finalStatus = .PENDING ↔
      row.attempts + 1 < max_attempts) ∧
    (max_attempts ≤ row.attempts + 1 →
      (finalize_claim s row p max_attempts now).finalStatus = .FAILED) := by
  have hclaim : claim_phase s max_attempts now =
      (finalize_job s j.id .FAILED (some (str "tentativas_excedidas")) now,
       .exceeded ⟨j.id, j.member_id, j.attempts⟩) := by
    unfold claim_phase
    simp only [hfetch]
    rw [if_pos hmax]
  have hiter : work_iteration s docRaw lookup elapsed ttl max_attempts now =
      { store := finalize_job s j.id .FAILED (some (str "tentativas_excedidas")) now,
        lookupCalled := false, memberStatusTxt := none,
        finalStatus := some .FAILED,
        finalLastError := some (str "tentativas_excedidas"), cancelledCount := 0,
        aprovadoFlowSent := false, pendenteFlowSent := false,
        pendenteSuppressed := false } := by
    unfold work_iteration
    rw [hclaim]
  have hcond : (p.ok && !p.timedOut) = false := by
    rcases hfail with h0 | h0 <;> simp [h0]
  refine ⟨?_, ?_, ?_, ?_, ?_, ?_, ?_, ?_, ?_, ?_⟩
  · apply forall2_map_self
    intro j0 hj0
    by_cases hid : j0.id = job_id
    · rw [if_pos hid]
      exact Nat.le_trans (hmark j0 hj0 hid) (Nat.le_succ att)
    · rw [if_neg hid]
  · apply forall2_map_self
    intro j0 _
    by_cases hid : j0.id = job_id
    · rw [if_pos hid]
    · rw [if_neg hid]
  · apply forall2_map_self
    intro j0 _
    by_cases hc : j0.status = JStatus.RUNNING ∧ j0.updated_at + ttl < now
    · rw [if_pos hc]
    · rw [if_neg hc]
  · unfold cancel_other_jobs_for_phone
    split
    · exact List.forall₂_same.mpr (fun x _ => Nat.le_refl _)
    · apply forall2_map_self
      intro j0 _
      by_cases hc : cancel_hit s phone ex j0 = true
      · rw [if_pos hc]
      · rw [if_neg hc]
  · rw [hiter]
  · rw [hiter]
  · rw [hiter]
  · rw [hiter]
    intro j0 hm hid
    rcases List.mem_map.mp hm with ⟨a, _, rfl⟩
    by_cases hai : a.id = j.id
    · rw [if_pos hai]
    · rw [if_neg hai] at hid ⊢
      exact absurd hid hai
  · exact (finalize_fail_gate s row p max_attempts now hcond).1
  · exact (finalize_fail_gate s row p max_attempts now hcond).2

theorem C5_attempts_monotone_and_gated_witness :
    ((∀ j0 ∈ ([⟨1, 1, .PENDING, 3, none, 0⟩] : List Job),
        j0.id = 1 → j0.attempts ≤ 3) ∧
     fetch_next_job ⟨[⟨1, 1, .PENDING, 3, none, 0⟩], []⟩ =
       some ⟨1, 1, .PENDING, 3, none, 0⟩ ∧
     (3 : Nat) ≤ 3 ∧
     ((process_claim [] (Except.ok ⟨false, none, none⟩) 0 120).ok = false ∨
      (process_claim [] (Except.ok ⟨false, none, none⟩) 0 120).timedOut = true)) ∧
    (List.Forall₂ (fun a b => a.attempts ≤ b.attempts)
      ([⟨1, 1, .PENDING, 3, none, 0⟩] : List Job)
      (mark_running ⟨[⟨1, 1, .PENDING, 3, none, 0⟩], []⟩ 1 3 7).jobs ∧
     List.Forall₂ (fun a b => a.attempts ≤ b.attempts)
      ([⟨1, 1, .PENDING, 3, none, 0⟩] : List Job)
      (finalize_job ⟨[⟨1, 1, .PENDING, 3, none, 0⟩], []⟩ 1 .FAILED none 7).jobs ∧
     List.Forall₂ (fun a b => a.attempts ≤ b.attempts)
      ([⟨1, 1, .PENDING, 3, none, 0⟩] : List Job)
      (requeue_stale_running_jobs ⟨[⟨1, 1, .PENDING, 3, none, 0⟩], []⟩ 120 7).jobs ∧
     List.Forall₂ (fun a b => a.attempts ≤ b.attempts)
      ([⟨1, 1, .PENDING, 3, none, 0⟩] : List Job)
      (cancel_other_jobs_for_phone ⟨[⟨1, 1, .PENDING, 3, none, 0⟩], []⟩
        [] 9 7).1.jobs ∧
     (work_iteration ⟨[⟨1, 1, .PENDING, 3, none, 0⟩], []⟩ []
        (Except.ok ⟨false, none, none⟩) 0 120 3 7).lookupCalled = false ∧
     (work_iteration ⟨[⟨1, 1, .PENDING, 3, none, 0⟩], []⟩ []
        (Except.ok ⟨false, none, none⟩) 0 120 3 7).finalStatus = some .FAILED ∧
     (work_iteration ⟨[⟨1, 1, .PENDING, 3, none, 0⟩], []⟩ []
        (Except.ok ⟨false, none, none⟩) 0 120 3 7).finalLastError =
          some (str "tentativas_excedidas") ∧
     (∀ j0 ∈ (work_iteration ⟨[⟨1, 1, .PENDING, 3, none, 0⟩], []⟩ []
        (Except.ok ⟨false, none, none⟩) 0 120 3 7).store.jobs,
        j0.id = 1 → j0.status = .FAILED) ∧
     ((finalize_claim ⟨[⟨1, 1, .PENDING, 3, none, 0⟩], []⟩ ⟨1, 1, 2⟩
        (process_claim [] (Except.ok ⟨false, none, none⟩) 0 120) 3 7).finalStatus
          = .PENDING ↔ 2 + 1 < 3) ∧
     ((3 : Nat) ≤ 2 + 1 →
      (finalize_claim ⟨[⟨1, 1, .PENDING, 3, none, 0⟩], []⟩ ⟨1, 1, 2⟩
        (process_claim [] (Except.ok ⟨false, none, none⟩) 0 120) 3 7).finalStatus
          = .FAILED)) :=
  ⟨⟨by decide, by decide, by decide, by decide⟩,
   C5_attempts_monotone_and_gated ⟨[⟨1, 1, .PENDING, 3, none, 0⟩], []⟩
     1 3 7 120 9 .FAILED none [] ⟨1, 1, 2⟩
     (process_claim [] (Except.ok ⟨false, none, none⟩) 0 120)
     [] (Except.ok ⟨false, none, none⟩) 0 3 ⟨1, 1, .PENDING, 3, none, 0⟩
     (by decide) (by decide) (by decide) (by decide)⟩

/-- C6: a claimed job whose subject's expected document strips to the empty
    string short-circuits: no registry lookup is made, the result carries the
    no-claim reason `documento_vazio`, the member is written `pendente`
    (never approved), and the job goes down the failure path (PENDING retry
    or FAILED); moreover the matcher returns false for any expected value
    that normalizes to an empty number, against any pooled extracted set. -/
theorem C6_no_claim_short_circuit (docRaw e : Str) (ids : List Str)
    (lookup : Except Unit LookupResult) (elapsed ttl max_attempts now : Nat)
    (s : Store) (row : JobRow)
    (hdoc : pyStrip docRaw = [])
    (hnum : (split_number_uf e).1 = []) :
    (process_claim docRaw lookup elapsed ttl).lookupCalled = false ∧
    (process_claim docRaw lookup elapsed ttl).ok = false ∧
    (process_claim docRaw lookup elapsed ttl).reason = some (str "documento_vazio") ∧
    member_status_txt (process_claim docRaw lookup elapsed ttl).ok =
      str "pendente" ∧
    ((finalize_claim s row (process_claim docRaw lookup elapsed ttl)
        max_attempts now).finalStatus = .PENDING ∨
     (finalize_claim s row (process_claim docRaw lookup elapsed ttl)
        max_attempts now).finalStatus = .FAILED) ∧
    match_document e (extractedOf ids) = false := by
  have hp : process_claim docRaw lookup elapsed ttl =
      { lookupCalled := false, ok := false,
        reason := some (str "documento_vazio"),
        statusLog := str "sem_documento", lastError := none,
        timedOut := decide (ttl < elapsed) } := by
    unfold process_claim
    rw [hdoc]
    rfl
  rw [hp]
  exact ⟨rfl, rfl, rfl, rfl,
         finalize_fail_status _ _ _ _ _ (by simp),
         match_document_empty_number hnum⟩

theorem C6_no_claim_short_circuit_witness :
    (pyStrip (str " ") = [] ∧ (split_number_uf (str "R-MG")).1 = []) ∧
    ((process_claim (str " ") (Except.ok ⟨true, none, none⟩) 0 120).lookupCalled
        = false ∧
     (process_claim (str " ") (Except.ok ⟨true, none, none⟩) 0 120).ok = false ∧
     (process_claim (str " ") (Except.ok ⟨true, none, none⟩) 0 120).reason =
        some (str "documento_vazio") ∧
     member_status_txt
        (process_claim (str " ") (Except.ok ⟨true, none, none⟩) 0 120).ok =
        str "pendente" ∧
     ((finalize_claim ⟨[], []⟩ ⟨1, 1, 0⟩
        (process_claim (str " ") (Except.ok ⟨true, none, none⟩) 0 120)
        3 0).finalStatus = .PENDING ∨
      (finalize_claim ⟨[], []⟩ ⟨1, 1, 0⟩
        (process_claim (str " ") (Except.ok ⟨true, none, none⟩) 0 120)
        3 0).finalStatus = .FAILED) ∧
     match_document (str "R-MG") (extractedOf [str "123-MG"]) = false) :=
  ⟨⟨by decide, by decide⟩,
   C6_no_claim_short_circuit (str " ") (str "R-MG") [str "123-MG"]
     (Except.ok ⟨true, none, none⟩) 0 120 3 0 ⟨[], []⟩ ⟨1, 1, 0⟩
     (by decide) (by decide)⟩

theorem forall2_map_map {α : Type} {P : α → α → Prop} (l : List α) (f g : α → α)
    (h : ∀ x ∈ l, P x (g (f x))) : List.Forall₂ P l ((l.map f).map g) := by
  rw [List.map_map]
  exact forall2_map_self l (g ∘ f) h

/-- The SUCCEEDED branch of `finalize_claim`, written out. -/
theorem finalize_success_spec (s : Store) (row : JobRow) (p : ProcessOut)
    (max_attempts now : Nat) (hcond : (p.ok && !p.timedOut) = true) :
    finalize_claim s row p max_attempts now =
      { store := (cancel_other_jobs_for_phone
          (finalize_job s row.id .SUCCEEDED none now)
          (get_phone_by_member s row.member_id) row.id now).1,
        finalStatus := .SUCCEEDED, finalLastError := none,
        cancelledCount := (cancel_other_jobs_for_phone
          (finalize_job s row.id .SUCCEEDED none now)
          (get_phone_by_member s row.member_id) row.id now).2,
        aprovadoFlowSent := true, pendenteFlowSent := false,
        pendenteSuppressed := false } := by
  unfold finalize_claim
  rw [hcond, if_pos rfl]

/-- C8 (amended): when a job is finalized SUCCEEDED and its member's phone is
    non-empty, every other job of a member sharing that phone that is still
    PENDING or RUNNING is transitioned to CANCELLED with the reason string
    `cancelled_by_other_success` recorded in `last_error`; and the claim
    query only ever returns PENDING jobs, so a job that stays CANCELLED is
    never claimed. -/
theorem C8_cancel_siblings_amended (s : Store) (row : JobRow) (p : ProcessOut)
    (max_attempts now : Nat)
    (hok : p.ok = true) (hto : p.timedOut = false)
    (hph : get_phone_by_member s row.member_id ≠ []) :
    (finalize_claim s row p max_attempts now).finalStatus = .SUCCEEDED ∧
    List.Forall₂ (fun a b =>
      (member_phone s a.member_id = some (get_phone_by_member s row.member_id) ∧
        a.id ≠ row.id ∧ (a.status = JStatus.PENDING ∨ a.status = JStatus.RUNNING)) →
      (b.status = JStatus.CANCELLED ∧
        b.last_error = some (str "cancelled_by_other_success")))
      s.jobs (finalize_claim s row p max_attempts now).store.jobs ∧
    (∀ (s' : Store) (jb : Job), fetch_next_job s' = some jb →
      jb.status = JStatus.PENDING) := by
  have hcond : (p.ok && !p.timedOut) = true := by rw [hok, hto]; rfl
  rw [finalize_success_spec s row p max_attempts now hcond]
  refine ⟨rfl, ?_, ?_⟩
  · show List.Forall₂ _ s.jobs
      (cancel_other_jobs_for_phone (finalize_job s row.id .SUCCEEDED none now)
        (get_phone_by_member s row.member_id) row.id now).1.jobs
    unfold cancel_other_jobs_for_phone
    rw [if_neg (by simpa using hph)]
    show List.Forall₂ _ s.jobs
      ((s.jobs.map (fun j => if j.id = row.id then
          { j with status := .SUCCEEDED, last_error := none, updated_at := now }
        else j)).map
       (fun j => if cancel_hit (finalize_job s row.id .SUCCEEDED none now)
          (get_phone_by_member s row.member_id) row.id j = true then
          { j with
              status := .CANCELLED,
              last_error := some (str "cancelled_by_other_success"),
              updated_at := now } else j))
    apply forall2_map_map
    intro a _ hcondp
    obtain ⟨hph', hid, hst⟩ := hcondp
    rw [if_neg hid]
    have hhit : cancel_hit (finalize_job s row.id .SUCCEEDED none now)
        (get_phone_by_member s row.member_id) row.id a = true :=
      decide_eq_true ⟨hph', hid, hst⟩
    rw [if_pos hhit]
    exact ⟨rfl, rfl⟩
  · intro s' jb hf
    have hf' : List.find? (fun j => decide (j.status = JStatus.PENDING)) s'.jobs
        = some jb := hf
    have h2 := List.find?_some hf'
    exact of_decide_eq_true h2

theorem C8_cancel_siblings_amended_witness :
    ((process_claim (str "12345")
        (Except.ok ⟨true, none, some { crm_padrao := some (str "12345") }⟩)
        1 120).ok = true ∧
     (process_claim (str "12345")
        (Except.ok ⟨true, none, some { crm_padrao := some (str "12345") }⟩)
        1 120).timedOut = false ∧
     get_phone_by_member
       ⟨[⟨1, 1, .RUNNING, 1, none, 0⟩, ⟨2, 2, .PENDING, 0, none, 0⟩],
         [⟨1, some (str "+551199999")⟩, ⟨2, some (str "+551199999")⟩]⟩ 1 ≠ []) ∧
    ((finalize_claim
        ⟨[⟨1, 1, .RUNNING, 1, none, 0⟩, ⟨2, 2, .PENDING, 0, none, 0⟩],
          [⟨1, some (str "+551199999")⟩, ⟨2, some (str "+551199999")⟩]⟩
        ⟨1, 1, 0⟩
        (process_claim (str "12345")
          (Except.ok ⟨true, none, some { crm_padrao := some (str "12345") }⟩)
          1 120) 3 9).finalStatus = .SUCCEEDED ∧
     List.Forall₂ (fun (a b : Job) =>
       (member_phone
           ⟨[⟨1, 1, .RUNNING, 1, none, 0⟩, ⟨2, 2, .PENDING, 0, none, 0⟩],
             [⟨1, some (str "+551199999")⟩, ⟨2, some (str "+551199999")⟩]⟩
           a.member_id =
         some (get_phone_by_member
           ⟨[⟨1, 1, .RUNNING, 1, none, 0⟩, ⟨2, 2, .PENDING, 0, none, 0⟩],
             [⟨1, some (str "+551199999")⟩, ⟨2, some (str "+551199999")⟩]⟩ 1) ∧
         a.id ≠ 1 ∧ (a.status = JStatus.PENDING ∨ a.status = JStatus.RUNNING)) →
       (b.status = JStatus.CANCELLED ∧
         b.last_error = some (str "cancelled_by_other_success")))
       [⟨1, 1, .RUNNING, 1, none, 0⟩, ⟨2, 2, .PENDING, 0, none, 0⟩]
       (finalize_claim
         ⟨[⟨1, 1, .RUNNING, 1, none, 0⟩, ⟨2, 2, .PENDING, 0, none, 0⟩],
           [⟨1, some (str "+551199999")⟩, ⟨2, some (str "+551199999")⟩]⟩
         ⟨1, 1, 0⟩
         (process_claim (str "12345")
           (Except.ok ⟨true, none, some { crm_padrao := some (str "12345") }⟩)
           1 120) 3 9).store.jobs ∧
     (∀ (s' : Store) (jb : Job), fetch_next_job s' = some jb →
       jb.status = JStatus.PENDING)) :=
  ⟨⟨by decide, by decide, by decide⟩,
   C8_cancel_siblings_amended
     ⟨[⟨1, 1, .RUNNING, 1, none, 0⟩, ⟨2, 2, .PENDING, 0, none, 0⟩],
       [⟨1, some (str "+551199999")⟩, ⟨2, some (str "+551199999")⟩]⟩
     ⟨1, 1, 0⟩
     (process_claim (str "12345")
       (Except.ok ⟨true, none, some { crm_padrao := some (str "12345") }⟩)
       1 120) 3 9 (by decide) (by decide) (by decide)⟩

/-- C9: on a terminally FAILED job with a non-empty member phone, the
    failure notification is sent exactly when no job sharing that phone has
    reached SUCCEEDED, and it is suppressed exactly when such a succeeded
    sibling exists. -/
theorem C9_failure_notification_suppression (s : Store) (row : JobRow)
    (p : ProcessOut) (max_attempts now : Nat)
    (hfail : p.ok = false ∨ p.timedOut = true)
    (hterm : max_attempts ≤ row.attempts + 1)
    (hph : get_phone_by_member s row.member_id ≠ []) :
    (finalize_claim s row p max_attempts now).finalStatus = .FAILED ∧
    ((finalize_claim s row p max_attempts now).pendenteFlowSent = false ↔
      ∃ jb ∈ (finalize_claim s row p max_attempts now).store.jobs,
        member_phone s jb.member_id =
          some (get_phone_by_member s row.member_id) ∧
        jb.status = JStatus.SUCCEEDED) ∧
    (finalize_claim s row p max_attempts now).pendenteSuppressed =
      !(finalize_claim s row p max_attempts now).pendenteFlowSent := by
  have hcond : (p.ok && !p.timedOut) = false := by
    rcases hfail with h0 | h0 <;> simp [h0]
  obtain ⟨e1, e2, e3⟩ :=
    finalize_fail_terminal_spec s row p max_attempts now hcond (by omega)
  refine ⟨(finalize_fail_gate s row p max_attempts now hcond).2 hterm, ?_, ?_⟩
  · rw [e2, e1, Bool.not_eq_false', exists_succeeded_iff hph]
    simp only [member_phone_congr e3]
  · rw [e2, Bool.not_not]

theorem C9_failure_notification_suppression_witness :
    (((process_claim (str "77") (Except.ok ⟨false, none, none⟩) 0 120).ok = false ∨
      (process_claim (str "77") (Except.ok ⟨false, none, none⟩) 0 120).timedOut
        = true) ∧
     (3 : Nat) ≤ 2 + 1 ∧
     get_phone_by_member
       ⟨[⟨1, 1, .RUNNING, 2, none, 0⟩, ⟨2, 2, .SUCCEEDED, 1, none, 0⟩],
         [⟨1, some (str "+55")⟩, ⟨2, some (str "+55")⟩]⟩ 1 ≠ []) ∧
    ((finalize_claim
        ⟨[⟨1, 1, .RUNNING, 2, none, 0⟩, ⟨2, 2, .SUCCEEDED, 1, none, 0⟩],
          [⟨1, some (str "+55")⟩, ⟨2, some (str "+55")⟩]⟩ ⟨1, 1, 2⟩
        (process_claim (str "77") (Except.ok ⟨false, none, none⟩) 0 120)
        3 4).finalStatus = .FAILED ∧
     ((finalize_claim
        ⟨[⟨1, 1, .RUNNING, 2, none, 0⟩, ⟨2, 2, .SUCCEEDED, 1, none, 0⟩],
          [⟨1, some (str "+55")⟩, ⟨2, some (str "+55")⟩]⟩ ⟨1, 1, 2⟩
        (process_claim (str "77") (Except.ok ⟨false, none, none⟩) 0 120)
        3 4).pendenteFlowSent = false ↔
      ∃ jb ∈ (finalize_claim
        ⟨[⟨1, 1, .RUNNING, 2, none, 0⟩, ⟨2, 2, .SUCCEEDED, 1, none, 0⟩],
          [⟨1, some (str "+55")⟩, ⟨2, some (str "+55")⟩]⟩ ⟨1, 1, 2⟩
        (process_claim (str "77") (Except.ok ⟨false, none, none⟩) 0 120)
        3 4).store.jobs,
        member_phone
          ⟨[⟨1, 1, .RUNNING, 2, none, 0⟩, ⟨2, 2, .SUCCEEDED, 1, none, 0⟩],
            [⟨1, some (str "+55")⟩, ⟨2, some (str "+55")⟩]⟩ jb.member_id =
          some (get_phone_by_member
            ⟨[⟨1, 1, .RUNNING, 2, none, 0⟩, ⟨2, 2, .SUCCEEDED, 1, none, 0⟩],
              [⟨1, some (str "+55")⟩, ⟨2, some (str "+55")⟩]⟩ 1) ∧
        jb.status = JStatus.SUCCEEDED) ∧
     (finalize_claim
        ⟨[⟨1, 1, .RUNNING, 2, none, 0⟩, ⟨2, 2, .SUCCEEDED, 1, none, 0⟩],
          [⟨1, some (str "+55")⟩, ⟨2, some (str "+55")⟩]⟩ ⟨1, 1, 2⟩
        (process_claim (str "77") (Except.ok ⟨false, none, none⟩) 0 120)
        3 4).pendenteSuppressed =
       !(finalize_claim
        ⟨[⟨1, 1, .RUNNING, 2, none, 0⟩, ⟨2, 2, .SUCCEEDED, 1, none, 0⟩],
          [⟨1, some (str "+55")⟩, ⟨2, some (str "+55")⟩]⟩ ⟨1, 1, 2⟩
        (process_claim (str "77") (Except.ok ⟨false, none, none⟩) 0 120)
        3 4).pendenteFlowSent) :=
  ⟨⟨by decide, by decide, by decide⟩,
   C9_failure_notification_suppression
     ⟨[⟨1, 1, .RUNNING, 2, none, 0⟩, ⟨2, 2, .SUCCEEDED, 1, none, 0⟩],
       [⟨1, some (str "+55")⟩, ⟨2, some (str "+55")⟩]⟩ ⟨1, 1, 2⟩
     (process_claim (str "77") (Except.ok ⟨false, none, none⟩) 0 120) 3 4
     (by decide) (by decide) (by decide)⟩

/-- C10: dedup coordination is a no-op on an empty phone —
    `cancel_other_jobs_for_phone` returns the store unchanged with count 0
    and `exists_succeeded_for_phone` returns false — so a success with an
    empty member phone cancels nothing (its finalized store is exactly the
    self-finalize), and a terminal FAILED job with an empty member phone
    always takes the failure-notification path, never the suppression. -/
theorem C10_empty_phone_dedup_noop (s s2 : Store) (ex now now2 max_attempts : Nat)
    (rowa rowb : JobRow) (p q : ProcessOut)
    (hpa : get_phone_by_member s rowa.member_id = [])
    (hok : p.ok = true) (hto : p.timedOut = false)
    (hqf : q.ok = false ∨ q.timedOut = true)
    (hqterm : max_attempts ≤ rowb.attempts + 1)
    (hpb : get_phone_by_member s rowb.member_id = []) :
    cancel_other_jobs_for_phone s2 [] ex now = (s2, 0) ∧
    exists_succeeded_for_phone s2 [] = false ∧
    (finalize_claim s rowa p max_attempts now2).store =
      finalize_job s rowa.id .SUCCEEDED none now2 ∧
    (finalize_claim s rowa p max_attempts now2).cancelledCount = 0 ∧
    (finalize_claim s rowb q max_attempts now2).finalStatus = .FAILED ∧
    (finalize_claim s rowb q max_attempts now2).pendenteSuppressed = false ∧
    (finalize_claim s rowb q max_attempts now2).pendenteFlowSent = true := by
  have hconda : (p.ok && !p.timedOut) = true := by rw [hok, hto]; rfl
  have hcondq : (q.ok && !q.timedOut) = false := by
    rcases hqf with h0 | h0 <;> simp [h0]
  obtain ⟨e1, e2, e3⟩ :=
    finalize_fail_terminal_spec s rowb q max_attempts now2 hcondq (by omega)
  have hsup : (finalize_claim s rowb q max_attempts now2).pendenteSuppressed
      = false := by
    rw [e1, hpb]
    rfl
  refine ⟨rfl, rfl, ?_, ?_,
    (finalize_fail_gate s rowb q max_attempts now2 hcondq).2 hqterm, hsup, ?_⟩
  · unfold finalize_claim
    rw [hconda, if_pos rfl, hpa]
    rfl
  · unfold finalize_claim
    rw [hconda, if_pos rfl, hpa]
    rfl
  · rw [e2, hsup]
    rfl

theorem C10_empty_phone_dedup_noop_witness :
    (get_phone_by_member ⟨[⟨1, 1, .PENDING, 0, none, 0⟩], [⟨1, none⟩]⟩ 1 = [] ∧
     (process_claim (str "1")
        (Except.ok ⟨true, none, some { crm_padrao := some (str "1") }⟩)
        0 120).ok = true ∧
     (process_claim (str "1")
        (Except.ok ⟨true, none, some { crm_padrao := some (str "1") }⟩)
        0 120).timedOut = false ∧
     ((process_claim (str "1") (Except.ok ⟨false, none, none⟩) 0 120).ok = false ∨
      (process_claim (str "1") (Except.ok ⟨false, none, none⟩) 0 120).timedOut
        = true) ∧
     (3 : Nat) ≤ 2 + 1) ∧
    (cancel_other_jobs_for_phone
        ⟨[⟨3, 3, .SUCCEEDED, 1, none, 0⟩], [⟨3, some (str "z")⟩]⟩ [] 9 1 =
      (⟨[⟨3, 3, .SUCCEEDED, 1, none, 0⟩], [⟨3, some (str "z")⟩]⟩, 0) ∧
     exists_succeeded_for_phone
        ⟨[⟨3, 3, .SUCCEEDED, 1, none, 0⟩], [⟨3, some (str "z")⟩]⟩ [] = false ∧
     (finalize_claim ⟨[⟨1, 1, .PENDING, 0, none, 0⟩], [⟨1, none⟩]⟩ ⟨1, 1, 0⟩
        (process_claim (str "1")
          (Except.ok ⟨true, none, some { crm_padrao := some (str "1") }⟩)
          0 120) 3 2).store =
       finalize_job ⟨[⟨1, 1, .PENDING, 0, none, 0⟩], [⟨1, none⟩]⟩ 1
         .SUCCEEDED none 2 ∧
     (finalize_claim ⟨[⟨1, 1, .PENDING, 0, none, 0⟩], [⟨1, none⟩]⟩ ⟨1, 1, 0⟩
        (process_claim (str "1")
          (Except.ok ⟨true, none, some { crm_padrao := some (str "1") }⟩)
          0 120) 3 2).cancelledCount = 0 ∧
     (finalize_claim ⟨[⟨1, 1, .PENDING, 0, none, 0⟩], [⟨1, none⟩]⟩ ⟨1, 1, 2⟩
        (process_claim (str "1") (Except.ok ⟨false, none, none⟩) 0 120)
        3 2).finalStatus = .FAILED ∧
     (finalize_claim ⟨[⟨1, 1, .PENDING, 0, none, 0⟩], [⟨1, none⟩]⟩ ⟨1, 1, 2⟩
        (process_claim (str "1") (Except.ok ⟨false, none, none⟩) 0 120)
        3 2).pendenteSuppressed = false ∧
     (finalize_claim ⟨[⟨1, 1, .PENDING, 0, none, 0⟩], [⟨1, none⟩]⟩ ⟨1, 1, 2⟩
        (process_claim (str "1") (Except.ok ⟨false, none, none⟩) 0 120)
        3 2).pendenteFlowSent = true) :=
  ⟨⟨by decide, by decide, by decide, by decide, by decide⟩,
   C10_empty_phone_dedup_noop
     ⟨[⟨1, 1, .PENDING, 0, none, 0⟩], [⟨1, none⟩]⟩
     ⟨[⟨3, 3, .SUCCEEDED, 1, none, 0⟩], [⟨3, some (str "z")⟩]⟩
     9 1 2 3 ⟨1, 1, 0⟩ ⟨1, 1, 2⟩
     (process_claim (str "1")
       (Except.ok ⟨true, none, some { crm_padrao := some (str "1") }⟩) 0 120)
     (process_claim (str "1") (Except.ok ⟨false, none, none⟩) 0 120)
     (by decide) (by decide) (by decide) (by decide) (by decide) (by decide)⟩

example : split_number_uf (str "12345-MG") = (str "12345", some (str "MG")) := by decide
example : split_number_uf (str " 12345 mg ") = (str "12345", some (str "MG")) := by decide
example : split_number_uf (str "12345") = (str "12345", none) := by decide
example : split_number_uf (str "A-BC") = ([], some (str "BC")) := by decide
example : match_document (str "98675-MG") (extractedOf [str "98675"]) = true := by decide
example : match_document (str "98675") (extractedOf [str "12345-MG"]) = false := by decide
example : collect_identifiers_from_result
    { ok := true, dados := some { crm_padrao := some (str "41255-MG") } } =
    [str "41255", str "41255-MG"] := by decide

end WorkerValidation
